import Mathlib

/-!
# Verification of the matrix-free Laplacian kernels (`src/matrix-free.hpp`)
and the ROCm-SMI telemetry collaborator.

The two GPU kernels `tabulate_tensor_Q1` / `tabulate_tensor_Q2` are embedded
over exact rational arithmetic (`ℚ`): every C array becomes a total function,
every fixed-bound accumulation loop becomes `loopSum`, and the shared
"Intermediates" scalar chain (`sv_461_*` in the degree-1 kernel, `sv_be1_*`
in the degree-2 kernel — textually identical) becomes the single definition
`fwQP` with the same intermediate names `sv_0 … sv_89`.
-/

namespace MatFree

/-- Accumulation loop `for (i = 0; i < n; ++i) acc += f i` starting from `0`. -/
def loopSum (n : ℕ) (f : ℕ → ℚ) : ℚ := ((List.range n).map f).sum

theorem loopSum_eq_sum (n : ℕ) (f : ℕ → ℚ) :
    loopSum n f = ∑ i ∈ Finset.range n, f i := by
  induction n with
  | zero => rfl
  | succ m ih =>
      rw [Finset.sum_range_succ, ← ih, loopSum, loopSum, List.range_succ]
      simp

/-- Quadrature weights `weights_461` of `tabulate_tensor_Q1` (27 points). -/
def weights_461 : ℕ → ℚ
  | 0 => 0.02143347050754454 | 1 => 0.03429355281207129 | 2 => 0.02143347050754456
  | 3 => 0.03429355281207129 | 4 => 0.05486968449931409 | 5 => 0.03429355281207132
  | 6 => 0.02143347050754457 | 7 => 0.03429355281207132 | 8 => 0.02143347050754458
  | 9 => 0.03429355281207129 | 10 => 0.05486968449931409 | 11 => 0.03429355281207132
  | 12 => 0.05486968449931409 | 13 => 0.0877914951989026 | 14 => 0.05486968449931414
  | 15 => 0.03429355281207132 | 16 => 0.05486968449931413 | 17 => 0.03429355281207135
  | 18 => 0.02143347050754457 | 19 => 0.03429355281207132 | 20 => 0.02143347050754458
  | 21 => 0.03429355281207132 | 22 => 0.05486968449931413 | 23 => 0.03429355281207135
  | 24 => 0.02143347050754458 | 25 => 0.03429355281207135 | 26 => 0.0214334705075446
  | _ => 0

/-- Basis derivative table `FE_TF0` of `tabulate_tensor_Q1`: `[3 points][2 dofs]`. -/
def FE_TF0_Q1 : ℕ → ℕ → ℚ
  | 0, 0 => -1.0 | 0, 1 => 1.0
  | 1, 0 => -1.0 | 1, 1 => 1.0
  | 2, 0 => -1.0 | 2, 1 => 1.0
  | _, _ => 0

/-- Basis value table `FE_TF1` of `tabulate_tensor_Q1`: `[3 points][2 dofs]`. -/
def FE_TF1_Q1 : ℕ → ℕ → ℚ
  | 0, 0 => 0.8872983346207417 | 0, 1 => 0.1127016653792582
  | 1, 0 => 0.5 | 1, 1 => 0.5
  | 2, 0 => 0.1127016653792582 | 2, 1 => 0.8872983346207417
  | _, _ => 0

/-- Quadrature weights `weights_be1` of `tabulate_tensor_Q2` (64 points). -/
def weights_be1 : ℕ → ℚ
  | 0 => 0.005261434686316431 | 1 => 0.009863939474383817 | 2 => 0.009863939474383819
  | 3 => 0.00526143468631643 | 4 => 0.009863939474383817 | 5 => 0.01849254200709766
  | 6 => 0.01849254200709766 | 7 => 0.009863939474383814 | 8 => 0.009863939474383819
  | 9 => 0.01849254200709766 | 10 => 0.01849254200709766 | 11 => 0.009863939474383816
  | 12 => 0.00526143468631643 | 13 => 0.009863939474383814 | 14 => 0.009863939474383816
  | 15 => 0.005261434686316428 | 16 => 0.009863939474383817 | 17 => 0.01849254200709766
  | 18 => 0.01849254200709766 | 19 => 0.009863939474383814 | 20 => 0.01849254200709766
  | 21 => 0.03466912086923912 | 22 => 0.03466912086923912 | 23 => 0.01849254200709765
  | 24 => 0.01849254200709766 | 25 => 0.03466912086923912 | 26 => 0.03466912086923913
  | 27 => 0.01849254200709766 | 28 => 0.009863939474383814 | 29 => 0.01849254200709765
  | 30 => 0.01849254200709766 | 31 => 0.00986393947438381 | 32 => 0.009863939474383819
  | 33 => 0.01849254200709766 | 34 => 0.01849254200709766 | 35 => 0.009863939474383816
  | 36 => 0.01849254200709766 | 37 => 0.03466912086923912 | 38 => 0.03466912086923913
  | 39 => 0.01849254200709766 | 40 => 0.01849254200709766 | 41 => 0.03466912086923912
  | 42 => 0.03466912086923913 | 43 => 0.01849254200709766 | 44 => 0.009863939474383817
  | 45 => 0.01849254200709766 | 46 => 0.01849254200709766 | 47 => 0.009863939474383814
  | 48 => 0.00526143468631643 | 49 => 0.009863939474383814 | 50 => 0.009863939474383816
  | 51 => 0.005261434686316428 | 52 => 0.009863939474383814 | 53 => 0.01849254200709765
  | 54 => 0.01849254200709766 | 55 => 0.00986393947438381 | 56 => 0.009863939474383817
  | 57 => 0.01849254200709766 | 58 => 0.01849254200709766 | 59 => 0.009863939474383814
  | 60 => 0.005261434686316428 | 61 => 0.00986393947438381 | 62 => 0.009863939474383812
  | 63 => 0.005261434686316426
  | _ => 0

/-- Basis derivative table `FE_TF0` of `tabulate_tensor_Q2`: `[4 points][3 dofs]`. -/
def FE_TF0_Q2 : ℕ → ℕ → ℚ
  | 0, 0 => -2.722272623188105 | 0, 1 => -0.7222726231881051 | 0, 2 => 3.44454524637621
  | 1, 0 => -1.679962087169713 | 1, 1 => 0.3200379128302875 | 1, 2 => 1.359924174339425
  | 2, 0 => -0.3200379128302875 | 2, 1 => 1.679962087169713 | 2, 2 => -1.359924174339425
  | 3, 0 => 0.7222726231881049 | 3, 1 => 2.722272623188105 | 3, 2 => -3.444545246376209
  | _, _ => 0

/-- Basis value table `FE_TF1` of `tabulate_tensor_Q2`: `[4 points][3 dofs]`. -/
def FE_TF1_Q2 : ℕ → ℕ → ℚ
  | 0, 0 => 0.8013460293699309 | 0, 1 => -0.05979028222412167 | 0, 2 => 0.2584442528541908
  | 1, 0 => 0.227784076790952 | 1, 1 => -0.1121969667939042 | 1, 2 => 0.884412890002952
  | 2, 0 => -0.1121969667939043 | 2, 1 => 0.2277840767909521 | 2, 2 => 0.884412890002952
  | 3, 0 => -0.05979028222412186 | 3, 1 => 0.8013460293699308 | 3, 2 => 0.258444252854191
  | _, _ => 0

/-- Geometry value table `FE_TF2` of `tabulate_tensor_Q2`: `[4 points][2 dofs]`. -/
def FE_TF2_Q2 : ℕ → ℕ → ℚ
  | 0, 0 => 0.9305681557970263 | 0, 1 => 0.06943184420297366
  | 1, 0 => 0.6699905217924281 | 1, 1 => 0.3300094782075719
  | 2, 0 => 0.3300094782075719 | 2, 1 => 0.6699905217924281
  | 3, 0 => 0.06943184420297371 | 3, 1 => 0.9305681557970262
  | _, _ => 0

/-- Geometry derivative table `FE_TF3` of `tabulate_tensor_Q2`: `[4 points][2 dofs]`. -/
def FE_TF3_Q2 : ℕ → ℕ → ℚ
  | 0, 0 => -1.0 | 0, 1 => 1.0
  | 1, 0 => -1.0 | 1, 1 => 1.0
  | 2, 0 => -1.0 | 2, 1 => 1.0
  | 3, 0 => -1.0 | 3, 1 => 1.0
  | _, _ => 0

/-- The 3×3 geometric Jacobian, entries `J_c0 … J_c8` as in the kernels. -/
structure Jac where
  c0 : ℚ
  c1 : ℚ
  c2 : ℚ
  c3 : ℚ
  c4 : ℚ
  c5 : ℚ
  c6 : ℚ
  c7 : ℚ
  c8 : ℚ

/-- One Jacobian entry: `Σ_{ic0,ic1,ic2<2} cd[(4·ic0+2·ic1+ic2)·3+d] · Ta[iq0][ic0]·Tb[iq1][ic1]·Tc[iq2][ic2]`
(the `J_c*` accumulation loops of both kernels; geometry always has 8 corner nodes). -/
def jacEntry (d : ℕ) (Ta Tb Tc : ℕ → ℕ → ℚ) (cd : ℕ → ℚ) (iq0 iq1 iq2 : ℕ) : ℚ :=
  loopSum 2 fun ic0 => loopSum 2 fun ic1 => loopSum 2 fun ic2 =>
    cd ((4 * ic0 + 2 * ic1 + ic2) * 3 + d) * (Ta iq0 ic0 * Tb iq1 ic1 * Tc iq2 ic2)

/-- The "Section: Jacobian" block: `G0` is the geometry derivative table
(`FE_TF0` in Q1, `FE_TF3` in Q2), `G1` the geometry value table
(`FE_TF1` in Q1, `FE_TF2` in Q2). -/
def jacGen (G0 G1 : ℕ → ℕ → ℚ) (cd : ℕ → ℚ) (iq0 iq1 iq2 : ℕ) : Jac where
  c0 := jacEntry 0 G0 G1 G1 cd iq0 iq1 iq2
  c1 := jacEntry 0 G1 G0 G1 cd iq0 iq1 iq2
  c2 := jacEntry 0 G1 G1 G0 cd iq0 iq1 iq2
  c3 := jacEntry 1 G0 G1 G1 cd iq0 iq1 iq2
  c4 := jacEntry 1 G1 G0 G1 cd iq0 iq1 iq2
  c5 := jacEntry 1 G1 G1 G0 cd iq0 iq1 iq2
  c6 := jacEntry 2 G0 G1 G1 cd iq0 iq1 iq2
  c7 := jacEntry 2 G1 G0 G1 cd iq0 iq1 iq2
  c8 := jacEntry 2 G1 G1 G0 cd iq0 iq1 iq2

/-- The "Section: Coefficient" block: one reference-direction derivative of the
interpolated field, `Σ_{ic0,ic1,ic2<nd} w[nd²·ic0+nd·ic1+ic2] · Ta[iq0][ic0]·Tb[iq1][ic1]·Tc[iq2][ic2]`
with `nd = 2` (Q1, indices `4·ic0+2·ic1+ic2`) or `nd = 3` (Q2, indices `9·ic0+3·ic1+ic2`). -/
def w0Gen (nd : ℕ) (Ta Tb Tc : ℕ → ℕ → ℚ) (w : ℕ → ℚ) (iq0 iq1 iq2 : ℕ) : ℚ :=
  loopSum nd fun ic0 => loopSum nd fun ic1 => loopSum nd fun ic2 =>
    w (nd * nd * ic0 + nd * ic1 + ic2) * (Ta iq0 ic0 * Tb iq1 ic1 * Tc iq2 ic2)

/-- The "Section: Intermediates" scalar chain, common to both kernels
(`sv_461_0 … sv_461_89` in `tabulate_tensor_Q1`, `sv_be1_0 … sv_be1_89` in
`tabulate_tensor_Q2`): from the Jacobian, the three reference-space coefficient
derivatives, the material constant `c[0]` and the quadrature weight, produce the
three weighted-flux scalars `(fw0, fw1, fw2)`. -/
def fwQP (J : Jac) (w0_d100 w0_d010 w0_d001 c wt : ℚ) : ℚ × ℚ × ℚ :=
  let sv_0 := J.c4 * J.c8
  let sv_1 := J.c5 * J.c7
  let sv_2 := -sv_1
  let sv_3 := sv_0 + sv_2
  let sv_4 := J.c0 * sv_3
  let sv_5 := J.c3 * J.c8
  let sv_6 := J.c5 * J.c6
  let sv_7 := -sv_6
  let sv_8 := sv_5 + sv_7
  let sv_9 := -J.c1
  let sv_10 := sv_8 * sv_9
  let sv_11 := sv_4 + sv_10
  let sv_12 := J.c3 * J.c7
  let sv_13 := J.c4 * J.c6
  let sv_14 := -sv_13
  let sv_15 := sv_12 + sv_14
  let sv_16 := J.c2 * sv_15
  let sv_17 := sv_11 + sv_16
  let sv_18 := sv_3 / sv_17
  let sv_19 := -J.c8
  let sv_20 := J.c3 * sv_19
  let sv_21 := sv_6 + sv_20
  let sv_22 := sv_21 / sv_17
  let sv_23 := sv_15 / sv_17
  let sv_24 := w0_d100 * sv_18
  let sv_25 := w0_d010 * sv_22
  let sv_26 := sv_24 + sv_25
  let sv_27 := w0_d001 * sv_23
  let sv_28 := sv_26 + sv_27
  let sv_29 := sv_28 * sv_18
  let sv_30 := sv_28 * sv_22
  let sv_31 := sv_28 * sv_23
  let sv_32 := J.c2 * J.c7
  let sv_33 := J.c8 * sv_9
  let sv_34 := sv_32 + sv_33
  let sv_35 := sv_34 / sv_17
  let sv_36 := J.c0 * J.c8
  let sv_37 := -J.c2
  let sv_38 := J.c6 * sv_37
  let sv_39 := sv_36 + sv_38
  let sv_40 := sv_39 / sv_17
  let sv_41 := J.c1 * J.c6
  let sv_42 := J.c0 * J.c7
  let sv_43 := -sv_42
  let sv_44 := sv_41 + sv_43
  let sv_45 := sv_44 / sv_17
  let sv_46 := w0_d100 * sv_35
  let sv_47 := w0_d010 * sv_40
  let sv_48 := sv_46 + sv_47
  let sv_49 := w0_d001 * sv_45
  let sv_50 := sv_48 + sv_49
  let sv_51 := sv_50 * sv_35
  let sv_52 := sv_50 * sv_40
  let sv_53 := sv_50 * sv_45
  let sv_54 := sv_51 + sv_29
  let sv_55 := sv_52 + sv_30
  let sv_56 := sv_31 + sv_53
  let sv_57 := J.c1 * J.c5
  let sv_58 := J.c2 * J.c4
  let sv_59 := -sv_58
  let sv_60 := sv_57 + sv_59
  let sv_61 := sv_60 / sv_17
  let sv_62 := J.c2 * J.c3
  let sv_63 := J.c0 * J.c5
  let sv_64 := -sv_63
  let sv_65 := sv_62 + sv_64
  let sv_66 := sv_65 / sv_17
  let sv_67 := J.c0 * J.c4
  let sv_68 := J.c1 * J.c3
  let sv_69 := -sv_68
  let sv_70 := sv_67 + sv_69
  let sv_71 := sv_70 / sv_17
  let sv_72 := w0_d100 * sv_61
  let sv_73 := w0_d010 * sv_66
  let sv_74 := sv_72 + sv_73
  let sv_75 := w0_d001 * sv_71
  let sv_76 := sv_74 + sv_75
  let sv_77 := sv_76 * sv_61
  let sv_78 := sv_76 * sv_66
  let sv_79 := sv_76 * sv_71
  let sv_80 := sv_54 + sv_77
  let sv_81 := sv_55 + sv_78
  let sv_82 := sv_56 + sv_79
  let sv_83 := c * sv_80
  let sv_84 := c * sv_81
  let sv_85 := c * sv_82
  let sv_86 := |sv_17|
  let sv_87 := sv_83 * sv_86
  let sv_88 := sv_84 * sv_86
  let sv_89 := sv_85 * sv_86
  (sv_87 * wt, sv_88 * wt, sv_89 * wt)

/-- The "Section: Tensor Computation" entry together with the quadrature loop:
total contribution accumulated into local tensor entry `j = nd²·i0 + nd·i1 + i2`
over all `nq³` quadrature points.  `T0`/`T1` are the coefficient derivative/value
tables, `G0`/`G1` the geometry ones, `weights` the flat weight array
(indexed `nq²·iq0 + nq·iq1 + iq2`). -/
def AEntryGen (nd nq : ℕ) (T0 T1 G0 G1 : ℕ → ℕ → ℚ) (weights : ℕ → ℚ)
    (w : ℕ → ℚ) (cd : ℕ → ℚ) (c : ℚ) (j : ℕ) : ℚ :=
  loopSum nq fun iq0 => loopSum nq fun iq1 => loopSum nq fun iq2 =>
    let J := jacGen G0 G1 cd iq0 iq1 iq2
    let fw := fwQP J (w0Gen nd T0 T1 T1 w iq0 iq1 iq2) (w0Gen nd T1 T0 T1 w iq0 iq1 iq2)
      (w0Gen nd T1 T1 T0 w iq0 iq1 iq2) c (weights (nq * nq * iq0 + nq * iq1 + iq2))
    fw.1 * (T0 iq0 (j / (nd * nd)) * T1 iq1 (j / nd % nd) * T1 iq2 (j % nd))
      + fw.2.1 * (T1 iq0 (j / (nd * nd)) * T0 iq1 (j / nd % nd) * T1 iq2 (j % nd))
      + fw.2.2 * (T1 iq0 (j / (nd * nd)) * T1 iq1 (j / nd % nd) * T0 iq2 (j % nd))

/-- Local tensor entry `A[j]` of `tabulate_tensor_Q1` after the quadrature loop.
The source declares `double A[8]` WITHOUT initialization and only accumulates
with `+=`, so the result adds to the indeterminate initial contents `A0`. -/
def A_Q1 (A0 : ℕ → ℚ) (w : ℕ → ℚ) (cd : ℕ → ℚ) (c : ℚ) (j : ℕ) : ℚ :=
  A0 j + AEntryGen 2 3 FE_TF0_Q1 FE_TF1_Q1 FE_TF0_Q1 FE_TF1_Q1 weights_461 w cd c j

/-- Local tensor entry `A[j]` of `tabulate_tensor_Q2` after the quadrature loop;
the source zero-initializes `A` explicitly before the loop. -/
def A_Q2 (w : ℕ → ℚ) (cd : ℕ → ℚ) (c : ℚ) (j : ℕ) : ℚ :=
  AEntryGen 3 4 FE_TF0_Q2 FE_TF1_Q2 FE_TF3_Q2 FE_TF2_Q2 weights_be1 w cd c j

/-- Per-cell coefficient gather: `w[i] = wglobal[dofmap[id*sd + i]]`
(`sd = 8` for Q1, `27` for Q2). -/
def wLocal (sd : ℕ) (wglobal : ℕ → ℚ) (dofmap : ℕ → ℕ) (id i : ℕ) : ℚ :=
  wglobal (dofmap (id * sd + i))

/-- Per-cell geometry gather:
`coordinate_dofs[i*3 + d] = coordinate_dofs_global[geom_dofmap[id*8 + i]*3 + d]`. -/
def cdLocal (coordinate_dofs_global : ℕ → ℚ) (geom_dofmap : ℕ → ℕ) (id k : ℕ) : ℚ :=
  coordinate_dofs_global (geom_dofmap (id * 8 + k / 3) * 3 + k % 3)

/-- One launch of `tabulate_tensor_Q1` over all `N` cells: every cell
atomic-adds its 8 local tensor entries into `Aglobal` at its dofmap indices.
`A0 id` is the indeterminate initial content of cell `id`'s uninitialized
local buffer `A`. -/
def runQ1 (N : ℕ) (Aglobal wglobal c coordinate_dofs_global : ℕ → ℚ)
    (geom_dofmap dofmap : ℕ → ℕ) (A0 : ℕ → ℕ → ℚ) : ℕ → ℚ :=
  fun g => Aglobal g + loopSum N fun id => loopSum 8 fun i =>
    if dofmap (id * 8 + i) = g then
      A_Q1 (A0 id) (wLocal 8 wglobal dofmap id)
        (cdLocal coordinate_dofs_global geom_dofmap id) (c 0) i
    else 0

/-- One launch of `tabulate_tensor_Q2` over all `N` cells (27 dofs per cell). -/
def runQ2 (N : ℕ) (Aglobal wglobal c coordinate_dofs_global : ℕ → ℚ)
    (geom_dofmap dofmap : ℕ → ℕ) : ℕ → ℚ :=
  fun g => Aglobal g + loopSum N fun id => loopSum 27 fun i =>
    if dofmap (id * 27 + i) = g then
      A_Q2 (wLocal 27 wglobal dofmap id)
        (cdLocal coordinate_dofs_global geom_dofmap id) (c 0) i
    else 0

/-- The two kernel variants the facade can dispatch to. -/
inductive KernelVariant
  | Q1
  | Q2
deriving DecidableEq

/-- The operator facade `dolfinx::acc::MatFreeLaplace`.  `tabulate_tensor` is
the dispatch member: the constructor's `switch` sets it for degrees 1 and 2 and
leaves it unset otherwise (`default: /* TODO throw error */ break;` — an
uninitialized function pointer, modelled as `none`). -/
structure MatFreeLaplace where
  num_cells : ℕ
  constants : ℕ → ℚ
  x : ℕ → ℚ
  x_dofmap : ℕ → ℕ
  dofmap : ℕ → ℕ
  tabulate_tensor : Option KernelVariant

/-- The `MatFreeLaplace` constructor: dispatch on the requested degree. -/
def matFreeLaplace (degree : ℤ) (num_cells : ℕ) (constants x : ℕ → ℚ)
    (x_dofmap dofmap : ℕ → ℕ) : MatFreeLaplace where
  num_cells := num_cells
  constants := constants
  x := x
  x_dofmap := x_dofmap
  dofmap := dofmap
  tabulate_tensor :=
    if degree = 1 then some KernelVariant.Q1
    else if degree = 2 then some KernelVariant.Q2
    else none

/-- `MatFreeLaplace::operator()`: launch the bound kernel over all cells.
Calling through the unset dispatch member (unsupported degree) has no defined
result and is modelled as `none`.  `A0` stands for the indeterminate initial
contents of the Q1 kernel's uninitialized per-cell buffer. -/
def MatFreeLaplace.apply (op : MatFreeLaplace) (A0 : ℕ → ℕ → ℚ)
    (win aout : ℕ → ℚ) : Option (ℕ → ℚ) :=
  match op.tabulate_tensor with
  | some KernelVariant.Q1 =>
      some (runQ1 op.num_cells aout win op.constants op.x op.x_dofmap op.dofmap A0)
  | some KernelVariant.Q2 =>
      some (runQ2 op.num_cells aout win op.constants op.x op.x_dofmap op.dofmap)
  | none => none

/-! ### Helper lemmas about accumulation loops -/

attribute [local semireducible] Rat.ofScientific Rat.mul Rat.inv Rat.add Rat.sub

set_option maxRecDepth 100000

set_option maxHeartbeats 4000000

theorem loopSum_congr {n : ℕ} {f g : ℕ → ℚ} (h : ∀ i < n, f i = g i) :
    loopSum n f = loopSum n g := by
  rw [loopSum_eq_sum, loopSum_eq_sum]
  exact Finset.sum_congr rfl fun i hi => h i (Finset.mem_range.mp hi)

theorem loopSum_eq_zero {n : ℕ} {f : ℕ → ℚ} (h : ∀ i < n, f i = 0) :
    loopSum n f = 0 := by
  rw [loopSum_eq_sum]
  exact Finset.sum_eq_zero fun i hi => h i (Finset.mem_range.mp hi)

theorem loopSum_add (n : ℕ) (f g : ℕ → ℚ) :
    loopSum n (fun i => f i + g i) = loopSum n f + loopSum n g := by
  rw [loopSum_eq_sum, loopSum_eq_sum, loopSum_eq_sum]
  exact Finset.sum_add_distrib

theorem loopSum_mul_left (n : ℕ) (a : ℚ) (f : ℕ → ℚ) :
    loopSum n (fun i => a * f i) = a * loopSum n f := by
  rw [loopSum_eq_sum, loopSum_eq_sum]
  exact (Finset.mul_sum _ _ _).symm

/-! ### The constant-coefficient field kills every flux -/

/-- When all three reference-space coefficient derivatives vanish, the whole
"Intermediates" chain produces zero weighted fluxes. -/
theorem fwQP_zero (J : Jac) (c wt : ℚ) : fwQP J 0 0 0 c wt = (0, 0, 0) := by
  simp [fwQP]

/-- For the constant-1 coefficient field, all three reference-space derivatives
of the degree-1 interpolant vanish at each of the 27 quadrature points (the
derivative table rows `{-1, 1}` sum to zero exactly). -/
theorem w0_Q1_const_eq_zero : ∀ iq0 < 3, ∀ iq1 < 3, ∀ iq2 < 3,
    w0Gen 2 FE_TF0_Q1 FE_TF1_Q1 FE_TF1_Q1 (fun _ => 1) iq0 iq1 iq2 = 0 ∧
    w0Gen 2 FE_TF1_Q1 FE_TF0_Q1 FE_TF1_Q1 (fun _ => 1) iq0 iq1 iq2 = 0 ∧
    w0Gen 2 FE_TF1_Q1 FE_TF1_Q1 FE_TF0_Q1 (fun _ => 1) iq0 iq1 iq2 = 0 := by
  decide

/-- Degree-1 kernel on the constant-1 coefficient field: the quadrature loop
contributes nothing to any local tensor entry. -/
theorem AEntryGen_Q1_const (cd : ℕ → ℚ) (c : ℚ) (j : ℕ) :
    AEntryGen 2 3 FE_TF0_Q1 FE_TF1_Q1 FE_TF0_Q1 FE_TF1_Q1 weights_461
      (fun _ => 1) cd c j = 0 := by
  rw [AEntryGen]
  refine loopSum_eq_zero fun iq0 h0 => loopSum_eq_zero fun iq1 h1 =>
    loopSum_eq_zero fun iq2 h2 => ?_
  obtain ⟨hx, hy, hz⟩ := w0_Q1_const_eq_zero iq0 h0 iq1 h1 iq2 h2
  simp only [hx, hy, hz, fwQP_zero]
  simp

/-- The degree-1 local tensor on a constant-1 coefficient field is exactly the
initial (uninitialized) buffer contents. -/
theorem A_Q1_const (A0 : ℕ → ℚ) (cd : ℕ → ℚ) (c : ℚ) (j : ℕ) :
    A_Q1 A0 (fun _ => 1) cd c j = A0 j := by
  rw [A_Q1, AEntryGen_Q1_const, add_zero]

/-- Gathering from the constant-1 global field yields the constant-1 local field. -/
theorem wLocal_one (sd : ℕ) (dm : ℕ → ℕ) (id : ℕ) :
    wLocal sd (fun _ => 1) dm id = fun _ => 1 := rfl

/-! ### A concrete one-cell mesh: the unit cube -/

/-- Coordinates of the 8 corners of the unit cube, node `n = 4·a + 2·b + c`
at position `(a, b, c)`, flattened three scalars per node exactly as the
kernels read `coordinate_dofs_global`. -/
def cubeCoords : ℕ → ℚ := fun k =>
  if k % 3 = 0 then ((k / 3 / 4 : ℕ) : ℚ)
  else if k % 3 = 1 then ((k / 3 / 2 % 2 : ℕ) : ℚ)
  else ((k / 3 % 2 : ℕ) : ℚ)

/-- C1, counterexample: on the single unit-cube cell with coefficient field 1.0
everywhere and material constant 1.0, the degree-2 kernel's output vector is
NOT zero at degree of freedom 0 under exact arithmetic — the tabulated basis
values are rounded decimals, so the claimed exact cancellation fails
(the exact value is ≈ 3.2·10⁻¹⁷). -/
theorem C1_counterexample_Q2_cube_not_zero :
    runQ2 1 (fun _ => 0) (fun _ => 1) (fun _ => 1) cubeCoords
      (fun n => n) (fun n => n) 0 ≠ 0 := by
  decide

/-- C1, amended: on the single unit-cube cell with coefficient field 1.0
everywhere and material constant 1.0, one application of the degree-1 kernel
(into a zero-filled output vector, the uninitialized local buffer taken as
zero) yields exactly zero at every degree of freedom: the degree-1 derivative
table rows are exactly `{-1.0, 1.0}`, so the constant field's reference-space
gradient vanishes identically. -/
theorem C1_Q1_cube_constant_field_zero :
    ∀ g : ℕ, runQ1 1 (fun _ => 0) (fun _ => 1) (fun _ => 1) cubeCoords
      (fun n => n) (fun n => n) (fun _ _ => 0) g = 0 := by
  intro g
  simp only [runQ1, wLocal_one, A_Q1_const]
  rw [zero_add]
  refine loopSum_eq_zero fun id _ => loopSum_eq_zero fun i _ => ?_
  simp

/-- C2: the degree-1 kernel's local tensor `A` is declared without
initialization and only accumulated with `+=`; whatever the buffer holds at
the start of the quadrature loop is scattered into the global vector.  On the
unit-cube cell with the constant-1 coefficient field the quadrature
contributions sum to zero, yet with initial buffer contents `(1,0,…,0)` the
value scattered to dof 0 is `1`, not the contribution sum `0`. -/
theorem C2_uninitialized_A_scatters_garbage :
    runQ1 1 (fun _ => 0) (fun _ => 1) (fun _ => 1) cubeCoords
      (fun n => n) (fun n => n) (fun _ i => if i = 0 then 1 else 0) 0 = 1 ∧
    AEntryGen 2 3 FE_TF0_Q1 FE_TF1_Q1 FE_TF0_Q1 FE_TF1_Q1 weights_461
      (wLocal 8 (fun _ => 1) (fun n => n) 0) (cdLocal cubeCoords (fun n => n) 0)
      1 0 = 0 := by
  constructor
  · simp only [runQ1, wLocal_one, A_Q1_const]
    decide
  · rw [show wLocal 8 (fun _ => 1) (fun n => n) 0 = fun _ => (1 : ℚ) from rfl]
    exact AEntryGen_Q1_const _ _ _

/-! ### C4: what the "Intermediates" section actually computes -/

/-- Following the spec's words: the 3×3 Jacobian determinant by the standard
cofactor expansion (the value the chain computes as `sv_17`). -/
def det3 (J : Jac) : ℚ :=
  J.c0 * (J.c4 * J.c8 - J.c5 * J.c7)
    - J.c1 * (J.c3 * J.c8 - J.c5 * J.c6)
    + J.c2 * (J.c3 * J.c7 - J.c4 * J.c6)

/-- Following the spec's words: the inverse Jacobian, "whose entries are
cofactors divided by the signed determinant"
(`(J⁻¹)_{r,c} = cofactor_{c,r} / det`). -/
def specJinv (J : Jac) : ℕ → ℕ → ℚ
  | 0, 0 => (J.c4 * J.c8 - J.c5 * J.c7) / det3 J
  | 0, 1 => -(J.c1 * J.c8 - J.c2 * J.c7) / det3 J
  | 0, 2 => (J.c1 * J.c5 - J.c2 * J.c4) / det3 J
  | 1, 0 => -(J.c3 * J.c8 - J.c5 * J.c6) / det3 J
  | 1, 1 => (J.c0 * J.c8 - J.c2 * J.c6) / det3 J
  | 1, 2 => -(J.c0 * J.c5 - J.c2 * J.c3) / det3 J
  | 2, 0 => (J.c3 * J.c7 - J.c4 * J.c6) / det3 J
  | 2, 1 => -(J.c0 * J.c7 - J.c1 * J.c6) / det3 J
  | 2, 2 => (J.c0 * J.c4 - J.c1 * J.c3) / det3 J
  | _, _ => 0

/-- Following the spec's words: the physical-space gradient component `k`,
"obtained by contracting the reference-space coefficient gradient with the
inverse Jacobian": `(∇u)_k = Σ_j w0_dj · (J⁻¹)_{j,k}`. -/
def specPhysGrad (J : Jac) (w0_d100 w0_d010 w0_d001 : ℚ) (k : ℕ) : ℚ :=
  w0_d100 * specJinv J 0 k + w0_d010 * specJinv J 1 k + w0_d001 * specJinv J 2 k

/-- C4, counterexample: at the Jacobian `diag(2,1,1)` with reference gradient
`(1,0,0)`, material constant 1 and weight 1, the first weighted-flux scalar is
`1/2`, not the physical gradient component times `c·|det|·wt` (which is `1`):
the chain applies the inverse Jacobian a second time. -/
theorem C4_counterexample_flux_not_physical_gradient :
    (fwQP ⟨2, 0, 0, 0, 1, 0, 0, 0, 1⟩ 1 0 0 1 1).1 ≠
      specPhysGrad ⟨2, 0, 0, 0, 1, 0, 0, 0, 1⟩ 1 0 0 0
        * (1 * |det3 ⟨2, 0, 0, 0, 1, 0, 0, 0, 1⟩| * 1) := by
  decide

/-- C4, amended: at every quadrature point with non-degenerate Jacobian, each
weighted-flux scalar `fw_k` equals `c[0] · |det| · wt` times the contraction
`Σ_m (J⁻¹)_{k,m} · (∇u)_m` of the inverse Jacobian with the physical-space
gradient (the flux is mapped back to reference test-derivative space, one more
inverse-Jacobian application than the claim states). -/
theorem C4_weighted_flux_characterization (J : Jac) (x y z c wt : ℚ)
    (h : det3 J ≠ 0) :
    fwQP J x y z c wt =
      (c * (specJinv J 0 0 * specPhysGrad J x y z 0 + specJinv J 0 1 * specPhysGrad J x y z 1
          + specJinv J 0 2 * specPhysGrad J x y z 2) * |det3 J| * wt,
       c * (specJinv J 1 0 * specPhysGrad J x y z 0 + specJinv J 1 1 * specPhysGrad J x y z 1
          + specJinv J 1 2 * specPhysGrad J x y z 2) * |det3 J| * wt,
       c * (specJinv J 2 0 * specPhysGrad J x y z 0 + specJinv J 2 1 * specPhysGrad J x y z 1
          + specJinv J 2 2 * specPhysGrad J x y z 2) * |det3 J| * wt) := by
  have hd : (J.c0 * (J.c4 * J.c8 + -(J.c5 * J.c7)) + (J.c3 * J.c8 + -(J.c5 * J.c6)) * -J.c1)
      + J.c2 * (J.c3 * J.c7 + -(J.c4 * J.c6)) = det3 J := by
    rw [det3]; ring
  simp only [fwQP, specJinv, specPhysGrad, Prod.mk.injEq]
  rw [hd]
  refine ⟨by ring, by ring, by ring⟩

/-- C4, witness: the characterization applies at the concrete non-degenerate
Jacobian `diag(2,1,1)`. -/
theorem C4_weighted_flux_characterization_witness :
    det3 ⟨2, 0, 0, 0, 1, 0, 0, 0, 1⟩ ≠ 0 ∧
    fwQP ⟨2, 0, 0, 0, 1, 0, 0, 0, 1⟩ 1 0 0 1 1 =
      (1 * (specJinv ⟨2, 0, 0, 0, 1, 0, 0, 0, 1⟩ 0 0 * specPhysGrad ⟨2, 0, 0, 0, 1, 0, 0, 0, 1⟩ 1 0 0 0
          + specJinv ⟨2, 0, 0, 0, 1, 0, 0, 0, 1⟩ 0 1 * specPhysGrad ⟨2, 0, 0, 0, 1, 0, 0, 0, 1⟩ 1 0 0 1
          + specJinv ⟨2, 0, 0, 0, 1, 0, 0, 0, 1⟩ 0 2 * specPhysGrad ⟨2, 0, 0, 0, 1, 0, 0, 0, 1⟩ 1 0 0 2)
          * |det3 ⟨2, 0, 0, 0, 1, 0, 0, 0, 1⟩| * 1,
       1 * (specJinv ⟨2, 0, 0, 0, 1, 0, 0, 0, 1⟩ 1 0 * specPhysGrad ⟨2, 0, 0, 0, 1, 0, 0, 0, 1⟩ 1 0 0 0
          + specJinv ⟨2, 0, 0, 0, 1, 0, 0, 0, 1⟩ 1 1 * specPhysGrad ⟨2, 0, 0, 0, 1, 0, 0, 0, 1⟩ 1 0 0 1
          + specJinv ⟨2, 0, 0, 0, 1, 0, 0, 0, 1⟩ 1 2 * specPhysGrad ⟨2, 0, 0, 0, 1, 0, 0, 0, 1⟩ 1 0 0 2)
          * |det3 ⟨2, 0, 0, 0, 1, 0, 0, 0, 1⟩| * 1,
       1 * (specJinv ⟨2, 0, 0, 0, 1, 0, 0, 0, 1⟩ 2 0 * specPhysGrad ⟨2, 0, 0, 0, 1, 0, 0, 0, 1⟩ 1 0 0 0
          + specJinv ⟨2, 0, 0, 0, 1, 0, 0, 0, 1⟩ 2 1 * specPhysGrad ⟨2, 0, 0, 0, 1, 0, 0, 0, 1⟩ 1 0 0 1
          + specJinv ⟨2, 0, 0, 0, 1, 0, 0, 0, 1⟩ 2 2 * specPhysGrad ⟨2, 0, 0, 0, 1, 0, 0, 0, 1⟩ 1 0 0 2)
          * |det3 ⟨2, 0, 0, 0, 1, 0, 0, 0, 1⟩| * 1) :=
  ⟨by decide, C4_weighted_flux_characterization ⟨2, 0, 0, 0, 1, 0, 0, 0, 1⟩ 1 0 0 1 1 (by decide)⟩

/-! ### C5: linearity of one operator application in the coefficient field -/

theorem loopSum_linear (n : ℕ) (a b : ℚ) (f g : ℕ → ℚ) :
    loopSum n (fun i => a * f i + b * g i) = a * loopSum n f + b * loopSum n g := by
  simp only [loopSum_eq_sum, Finset.mul_sum, ← Finset.sum_add_distrib]

theorem fwQP_linear (J : Jac) (a b x1 y1 z1 x2 y2 z2 c wt : ℚ) :
    fwQP J (a * x1 + b * x2) (a * y1 + b * y2) (a * z1 + b * z2) c wt =
      (a * (fwQP J x1 y1 z1 c wt).1 + b * (fwQP J x2 y2 z2 c wt).1,
       a * (fwQP J x1 y1 z1 c wt).2.1 + b * (fwQP J x2 y2 z2 c wt).2.1,
       a * (fwQP J x1 y1 z1 c wt).2.2 + b * (fwQP J x2 y2 z2 c wt).2.2) := by
  simp only [fwQP, Prod.mk.injEq]
  refine ⟨by ring, by ring, by ring⟩

theorem w0Gen_linear (nd : ℕ) (Ta Tb Tc : ℕ → ℕ → ℚ) (a b : ℚ) (u v : ℕ → ℚ)
    (iq0 iq1 iq2 : ℕ) :
    w0Gen nd Ta Tb Tc (fun i => a * u i + b * v i) iq0 iq1 iq2 =
      a * w0Gen nd Ta Tb Tc u iq0 iq1 iq2 + b * w0Gen nd Ta Tb Tc v iq0 iq1 iq2 := by
  simp only [w0Gen, loopSum_eq_sum, Finset.mul_sum, ← Finset.sum_add_distrib]
  exact Finset.sum_congr rfl fun i _ => Finset.sum_congr rfl fun j _ =>
    Finset.sum_congr rfl fun k _ => by ring

theorem AEntryGen_linear (nd nq : ℕ) (T0 T1 G0 G1 : ℕ → ℕ → ℚ) (weights : ℕ → ℚ)
    (a b : ℚ) (u v : ℕ → ℚ) (cd : ℕ → ℚ) (c : ℚ) (j : ℕ) :
    AEntryGen nd nq T0 T1 G0 G1 weights (fun i => a * u i + b * v i) cd c j =
      a * AEntryGen nd nq T0 T1 G0 G1 weights u cd c j
        + b * AEntryGen nd nq T0 T1 G0 G1 weights v cd c j := by
  simp only [AEntryGen, w0Gen_linear, fwQP_linear]
  simp only [loopSum_eq_sum, Finset.mul_sum, ← Finset.sum_add_distrib]
  exact Finset.sum_congr rfl fun i _ => Finset.sum_congr rfl fun j' _ =>
    Finset.sum_congr rfl fun k _ => by ring

theorem wLocal_linear (sd : ℕ) (a b : ℚ) (u v : ℕ → ℚ) (dm : ℕ → ℕ) (id : ℕ) :
    wLocal sd (fun n => a * u n + b * v n) dm id =
      fun i => a * wLocal sd u dm id i + b * wLocal sd v dm id i := rfl

theorem A_Q1_zeroA0_linear (a b : ℚ) (u v : ℕ → ℚ) (cd : ℕ → ℚ) (c : ℚ) (j : ℕ) :
    A_Q1 (fun _ => 0) (fun i => a * u i + b * v i) cd c j =
      a * A_Q1 (fun _ => 0) u cd c j + b * A_Q1 (fun _ => 0) v cd c j := by
  simp [A_Q1, AEntryGen_linear]

theorem A_Q2_linear (a b : ℚ) (u v : ℕ → ℚ) (cd : ℕ → ℚ) (c : ℚ) (j : ℕ) :
    A_Q2 (fun i => a * u i + b * v i) cd c j =
      a * A_Q2 u cd c j + b * A_Q2 v cd c j := by
  simp [A_Q2, AEntryGen_linear]

theorem ite_linear (P : Prop) [Decidable P] (a b X Y : ℚ) :
    (if P then a * X + b * Y else 0)
      = a * (if P then X else 0) + b * (if P then Y else 0) := by
  by_cases h : P <;> simp [h]

/-- C5: under exact arithmetic one operator application (into a zero-filled
output vector, the degree-1 kernel's uninitialized local buffer taken as zero)
is linear in the input coefficient field, for every mesh, every pair of
scalars and every pair of fields, for both kernel variants. -/
theorem C5_apply_linear_in_field (N : ℕ) (cs cg : ℕ → ℚ) (gdm dm : ℕ → ℕ)
    (a b : ℚ) (u1 u2 : ℕ → ℚ) (g : ℕ) :
    runQ1 N (fun _ => 0) (fun n => a * u1 n + b * u2 n) cs cg gdm dm (fun _ _ => 0) g
      = a * runQ1 N (fun _ => 0) u1 cs cg gdm dm (fun _ _ => 0) g
        + b * runQ1 N (fun _ => 0) u2 cs cg gdm dm (fun _ _ => 0) g ∧
    runQ2 N (fun _ => 0) (fun n => a * u1 n + b * u2 n) cs cg gdm dm g
      = a * runQ2 N (fun _ => 0) u1 cs cg gdm dm g
        + b * runQ2 N (fun _ => 0) u2 cs cg gdm dm g := by
  constructor
  · simp only [runQ1, wLocal_linear, A_Q1_zeroA0_linear, zero_add]
    simp only [← ite_linear, ← loopSum_linear]
  · simp only [runQ2, wLocal_linear, A_Q2_linear, zero_add]
    simp only [← ite_linear, ← loopSum_linear]

/-! ### C6: the operator is self-adjoint -/

/-- The global pairing `Σ_{g<ndofs} u[g]·w[g]` of two vectors. -/
def dot (ndofs : ℕ) (u w : ℕ → ℚ) : ℚ := loopSum ndofs fun g => u g * w g

theorem loopSum_comm (m n : ℕ) (G : ℕ → ℕ → ℚ) :
    loopSum m (fun i => loopSum n fun q => G i q) =
    loopSum n (fun q => loopSum m fun i => G i q) := by
  simp only [loopSum_eq_sum]
  exact Finset.sum_comm

theorem loopSum8_cube (f : ℕ → ℚ) :
    loopSum 8 f = loopSum 2 fun a => loopSum 2 fun b => loopSum 2 fun c =>
      f (4 * a + 2 * b + c) := by
  simp [loopSum, List.range_succ]
  ring

theorem loopSum27_cube (f : ℕ → ℚ) :
    loopSum 27 f = loopSum 3 fun a => loopSum 3 fun b => loopSum 3 fun c =>
      f (9 * a + 3 * b + c) := by
  simp [loopSum, List.range_succ]
  ring

theorem loopSum8_weighted (vloc : ℕ → ℚ) (Ta Tb Tc : ℕ → ℕ → ℚ) (q0 q1 q2 : ℕ) :
    loopSum 8 (fun i => vloc i * (Ta q0 (i / (2 * 2)) * Tb q1 (i / 2 % 2) * Tc q2 (i % 2))) =
    w0Gen 2 Ta Tb Tc vloc q0 q1 q2 := by
  rw [loopSum8_cube]
  rw [show w0Gen 2 Ta Tb Tc vloc q0 q1 q2 = loopSum 2 (fun a => loopSum 2 fun b =>
      loopSum 2 fun c => vloc (4 * a + 2 * b + c) * (Ta q0 a * Tb q1 b * Tc q2 c)) from by
    norm_num [w0Gen]]
  refine loopSum_congr fun a ha => loopSum_congr fun b hb => loopSum_congr fun c hc => ?_
  have h4 : (4 * a + 2 * b + c) / (2 * 2) = a := by omega
  have h2 : (4 * a + 2 * b + c) / 2 % 2 = b := by omega
  have h1 : (4 * a + 2 * b + c) % 2 = c := by omega
  rw [h4, h2, h1]

theorem loopSum27_weighted (vloc : ℕ → ℚ) (Ta Tb Tc : ℕ → ℕ → ℚ) (q0 q1 q2 : ℕ) :
    loopSum 27 (fun i => vloc i * (Ta q0 (i / (3 * 3)) * Tb q1 (i / 3 % 3) * Tc q2 (i % 3))) =
    w0Gen 3 Ta Tb Tc vloc q0 q1 q2 := by
  rw [loopSum27_cube]
  rw [show w0Gen 3 Ta Tb Tc vloc q0 q1 q2 = loopSum 3 (fun a => loopSum 3 fun b =>
      loopSum 3 fun c => vloc (9 * a + 3 * b + c) * (Ta q0 a * Tb q1 b * Tc q2 c)) from by
    norm_num [w0Gen]]
  refine loopSum_congr fun a ha => loopSum_congr fun b hb => loopSum_congr fun c hc => ?_
  have h9 : (9 * a + 3 * b + c) / (3 * 3) = a := by omega
  have h3 : (9 * a + 3 * b + c) / 3 % 3 = b := by omega
  have h1 : (9 * a + 3 * b + c) % 3 = c := by omega
  rw [h9, h3, h1]

theorem fwQP_symm (J : Jac) (xu yu zu xv yv zv c wt : ℚ) :
    (fwQP J xu yu zu c wt).1 * xv + (fwQP J xu yu zu c wt).2.1 * yv
      + (fwQP J xu yu zu c wt).2.2 * zv =
    (fwQP J xv yv zv c wt).1 * xu + (fwQP J xv yv zv c wt).2.1 * yu
      + (fwQP J xv yv zv c wt).2.2 * zu := by
  simp only [fwQP]
  ring

theorem dot_scatter (ndofs N sd : ℕ) (v : ℕ → ℚ) (dm : ℕ → ℕ) (F : ℕ → ℕ → ℚ)
    (hb : ∀ id < N, ∀ i < sd, dm (id * sd + i) < ndofs) :
    loopSum ndofs (fun g => v g * loopSum N (fun id => loopSum sd (fun i =>
        if dm (id * sd + i) = g then F id i else 0))) =
    loopSum N (fun id => loopSum sd (fun i => v (dm (id * sd + i)) * F id i)) := by
  simp only [loopSum_eq_sum, Finset.mul_sum]
  rw [Finset.sum_comm]
  refine Finset.sum_congr rfl fun id hid => ?_
  rw [Finset.sum_comm]
  refine Finset.sum_congr rfl fun i hi => ?_
  simp only [mul_ite, mul_zero]
  rw [Finset.sum_ite_eq (Finset.range ndofs) (dm (id * sd + i)) (fun g => v g * F id i)]
  simp [Finset.mem_range.mpr (hb id (Finset.mem_range.mp hid) i (Finset.mem_range.mp hi))]

theorem dot_tensor_8 (vloc : ℕ → ℚ) (F : ℚ × ℚ × ℚ) (T0 T1 : ℕ → ℕ → ℚ) (q0 q1 q2 : ℕ) :
    loopSum 8 (fun i => vloc i *
        (F.1 * (T0 q0 (i / (2 * 2)) * T1 q1 (i / 2 % 2) * T1 q2 (i % 2))
       + F.2.1 * (T1 q0 (i / (2 * 2)) * T0 q1 (i / 2 % 2) * T1 q2 (i % 2))
       + F.2.2 * (T1 q0 (i / (2 * 2)) * T1 q1 (i / 2 % 2) * T0 q2 (i % 2)))) =
    F.1 * w0Gen 2 T0 T1 T1 vloc q0 q1 q2 + F.2.1 * w0Gen 2 T1 T0 T1 vloc q0 q1 q2
      + F.2.2 * w0Gen 2 T1 T1 T0 vloc q0 q1 q2 := by
  rw [← loopSum8_weighted vloc T0 T1 T1 q0 q1 q2, ← loopSum8_weighted vloc T1 T0 T1 q0 q1 q2,
      ← loopSum8_weighted vloc T1 T1 T0 q0 q1 q2, ← loopSum_mul_left, ← loopSum_mul_left,
      ← loopSum_mul_left, ← loopSum_add, ← loopSum_add]
  exact loopSum_congr fun i _ => by ring

theorem dot_tensor_27 (vloc : ℕ → ℚ) (F : ℚ × ℚ × ℚ) (T0 T1 : ℕ → ℕ → ℚ) (q0 q1 q2 : ℕ) :
    loopSum 27 (fun i => vloc i *
        (F.1 * (T0 q0 (i / (3 * 3)) * T1 q1 (i / 3 % 3) * T1 q2 (i % 3))
       + F.2.1 * (T1 q0 (i / (3 * 3)) * T0 q1 (i / 3 % 3) * T1 q2 (i % 3))
       + F.2.2 * (T1 q0 (i / (3 * 3)) * T1 q1 (i / 3 % 3) * T0 q2 (i % 3)))) =
    F.1 * w0Gen 3 T0 T1 T1 vloc q0 q1 q2 + F.2.1 * w0Gen 3 T1 T0 T1 vloc q0 q1 q2
      + F.2.2 * w0Gen 3 T1 T1 T0 vloc q0 q1 q2 := by
  rw [← loopSum27_weighted vloc T0 T1 T1 q0 q1 q2, ← loopSum27_weighted vloc T1 T0 T1 q0 q1 q2,
      ← loopSum27_weighted vloc T1 T1 T0 q0 q1 q2, ← loopSum_mul_left, ← loopSum_mul_left,
      ← loopSum_mul_left, ← loopSum_add, ← loopSum_add]
  exact loopSum_congr fun i _ => by ring

theorem dot_AEntry_Q1 (vloc uloc cd : ℕ → ℚ) (c : ℚ) :
    loopSum 8 (fun i => vloc i *
      AEntryGen 2 3 FE_TF0_Q1 FE_TF1_Q1 FE_TF0_Q1 FE_TF1_Q1 weights_461 uloc cd c i) =
    loopSum 3 (fun q0 => loopSum 3 fun q1 => loopSum 3 fun q2 =>
      (fwQP (jacGen FE_TF0_Q1 FE_TF1_Q1 cd q0 q1 q2)
          (w0Gen 2 FE_TF0_Q1 FE_TF1_Q1 FE_TF1_Q1 uloc q0 q1 q2)
          (w0Gen 2 FE_TF1_Q1 FE_TF0_Q1 FE_TF1_Q1 uloc q0 q1 q2)
          (w0Gen 2 FE_TF1_Q1 FE_TF1_Q1 FE_TF0_Q1 uloc q0 q1 q2)
          c (weights_461 (3 * 3 * q0 + 3 * q1 + q2))).1
        * w0Gen 2 FE_TF0_Q1 FE_TF1_Q1 FE_TF1_Q1 vloc q0 q1 q2
      + (fwQP (jacGen FE_TF0_Q1 FE_TF1_Q1 cd q0 q1 q2)
          (w0Gen 2 FE_TF0_Q1 FE_TF1_Q1 FE_TF1_Q1 uloc q0 q1 q2)
          (w0Gen 2 FE_TF1_Q1 FE_TF0_Q1 FE_TF1_Q1 uloc q0 q1 q2)
          (w0Gen 2 FE_TF1_Q1 FE_TF1_Q1 FE_TF0_Q1 uloc q0 q1 q2)
          c (weights_461 (3 * 3 * q0 + 3 * q1 + q2))).2.1
        * w0Gen 2 FE_TF1_Q1 FE_TF0_Q1 FE_TF1_Q1 vloc q0 q1 q2
      + (fwQP (jacGen FE_TF0_Q1 FE_TF1_Q1 cd q0 q1 q2)
          (w0Gen 2 FE_TF0_Q1 FE_TF1_Q1 FE_TF1_Q1 uloc q0 q1 q2)
          (w0Gen 2 FE_TF1_Q1 FE_TF0_Q1 FE_TF1_Q1 uloc q0 q1 q2)
          (w0Gen 2 FE_TF1_Q1 FE_TF1_Q1 FE_TF0_Q1 uloc q0 q1 q2)
          c (weights_461 (3 * 3 * q0 + 3 * q1 + q2))).2.2
        * w0Gen 2 FE_TF1_Q1 FE_TF1_Q1 FE_TF0_Q1 vloc q0 q1 q2) := by
  simp only [AEntryGen, ← loopSum_mul_left]
  rw [loopSum_comm]
  refine loopSum_congr fun q0 _ => ?_
  rw [loopSum_comm]
  refine loopSum_congr fun q1 _ => ?_
  rw [loopSum_comm]
  refine loopSum_congr fun q2 _ => ?_
  exact dot_tensor_8 vloc _ FE_TF0_Q1 FE_TF1_Q1 q0 q1 q2

theorem dot_AEntry_Q2 (vloc uloc cd : ℕ → ℚ) (c : ℚ) :
    loopSum 27 (fun i => vloc i *
      AEntryGen 3 4 FE_TF0_Q2 FE_TF1_Q2 FE_TF3_Q2 FE_TF2_Q2 weights_be1 uloc cd c i) =
    loopSum 4 (fun q0 => loopSum 4 fun q1 => loopSum 4 fun q2 =>
      (fwQP (jacGen FE_TF3_Q2 FE_TF2_Q2 cd q0 q1 q2)
          (w0Gen 3 FE_TF0_Q2 FE_TF1_Q2 FE_TF1_Q2 uloc q0 q1 q2)
          (w0Gen 3 FE_TF1_Q2 FE_TF0_Q2 FE_TF1_Q2 uloc q0 q1 q2)
          (w0Gen 3 FE_TF1_Q2 FE_TF1_Q2 FE_TF0_Q2 uloc q0 q1 q2)
          c (weights_be1 (4 * 4 * q0 + 4 * q1 + q2))).1
        * w0Gen 3 FE_TF0_Q2 FE_TF1_Q2 FE_TF1_Q2 vloc q0 q1 q2
      + (fwQP (jacGen FE_TF3_Q2 FE_TF2_Q2 cd q0 q1 q2)
          (w0Gen 3 FE_TF0_Q2 FE_TF1_Q2 FE_TF1_Q2 uloc q0 q1 q2)
          (w0Gen 3 FE_TF1_Q2 FE_TF0_Q2 FE_TF1_Q2 uloc q0 q1 q2)
          (w0Gen 3 FE_TF1_Q2 FE_TF1_Q2 FE_TF0_Q2 uloc q0 q1 q2)
          c (weights_be1 (4 * 4 * q0 + 4 * q1 + q2))).2.1
        * w0Gen 3 FE_TF1_Q2 FE_TF0_Q2 FE_TF1_Q2 vloc q0 q1 q2
      + (fwQP (jacGen FE_TF3_Q2 FE_TF2_Q2 cd q0 q1 q2)
          (w0Gen 3 FE_TF0_Q2 FE_TF1_Q2 FE_TF1_Q2 uloc q0 q1 q2)
          (w0Gen 3 FE_TF1_Q2 FE_TF0_Q2 FE_TF1_Q2 uloc q0 q1 q2)
          (w0Gen 3 FE_TF1_Q2 FE_TF1_Q2 FE_TF0_Q2 uloc q0 q1 q2)
          c (weights_be1 (4 * 4 * q0 + 4 * q1 + q2))).2.2
        * w0Gen 3 FE_TF1_Q2 FE_TF1_Q2 FE_TF0_Q2 vloc q0 q1 q2) := by
  simp only [AEntryGen, ← loopSum_mul_left]
  rw [loopSum_comm]
  refine loopSum_congr fun q0 _ => ?_
  rw [loopSum_comm]
  refine loopSum_congr fun q1 _ => ?_
  rw [loopSum_comm]
  refine loopSum_congr fun q2 _ => ?_
  exact dot_tensor_27 vloc _ FE_TF0_Q2 FE_TF1_Q2 q0 q1 q2

/-- Per-cell symmetry of the degree-1 local tensor: the coefficient gather
tables and the test-function tables coincide, and the flux chain is a
symmetric bilinear pairing of the two reference gradients. -/
theorem cellSymm_Q1 (uloc vloc cd : ℕ → ℚ) (c : ℚ) :
    loopSum 8 (fun i => vloc i *
      AEntryGen 2 3 FE_TF0_Q1 FE_TF1_Q1 FE_TF0_Q1 FE_TF1_Q1 weights_461 uloc cd c i) =
    loopSum 8 (fun i => uloc i *
      AEntryGen 2 3 FE_TF0_Q1 FE_TF1_Q1 FE_TF0_Q1 FE_TF1_Q1 weights_461 vloc cd c i) := by
  rw [dot_AEntry_Q1, dot_AEntry_Q1]
  exact loopSum_congr fun q0 _ => loopSum_congr fun q1 _ => loopSum_congr fun q2 _ =>
    fwQP_symm _ _ _ _ _ _ _ _ _

/-- Per-cell symmetry of the degree-2 local tensor. -/
theorem cellSymm_Q2 (uloc vloc cd : ℕ → ℚ) (c : ℚ) :
    loopSum 27 (fun i => vloc i *
      AEntryGen 3 4 FE_TF0_Q2 FE_TF1_Q2 FE_TF3_Q2 FE_TF2_Q2 weights_be1 uloc cd c i) =
    loopSum 27 (fun i => uloc i *
      AEntryGen 3 4 FE_TF0_Q2 FE_TF1_Q2 FE_TF3_Q2 FE_TF2_Q2 weights_be1 vloc cd c i) := by
  rw [dot_AEntry_Q2, dot_AEntry_Q2]
  exact loopSum_congr fun q0 _ => loopSum_congr fun q1 _ => loopSum_congr fun q2 _ =>
    fwQP_symm _ _ _ _ _ _ _ _ _

theorem A_Q1_zeroA0 (w cd : ℕ → ℚ) (c : ℚ) (j : ℕ) :
    A_Q1 (fun _ => 0) w cd c j =
      AEntryGen 2 3 FE_TF0_Q1 FE_TF1_Q1 FE_TF0_Q1 FE_TF1_Q1 weights_461 w cd c j := by
  simp [A_Q1]

theorem A_Q2_unfold (w cd : ℕ → ℚ) (c : ℚ) (j : ℕ) :
    A_Q2 w cd c j =
      AEntryGen 3 4 FE_TF0_Q2 FE_TF1_Q2 FE_TF3_Q2 FE_TF2_Q2 weights_be1 w cd c j := rfl

/-- C6: under exact arithmetic the operator is self-adjoint: for every mesh
whose field dofmap stays below `ndofs` and every pair of coefficient fields
`u`, `v`, the global pairing of `v` with `apply u` (into a zero-filled output,
uninitialized degree-1 buffer taken as zero) equals that of `u` with
`apply v`, for both kernel variants. -/
theorem C6_self_adjoint (ndofs N : ℕ) (cs cg u v : ℕ → ℚ) (gdm dm : ℕ → ℕ)
    (hb8 : ∀ id < N, ∀ i < 8, dm (id * 8 + i) < ndofs)
    (hb27 : ∀ id < N, ∀ i < 27, dm (id * 27 + i) < ndofs) :
    dot ndofs v (runQ1 N (fun _ => 0) u cs cg gdm dm (fun _ _ => 0)) =
      dot ndofs u (runQ1 N (fun _ => 0) v cs cg gdm dm (fun _ _ => 0)) ∧
    dot ndofs v (runQ2 N (fun _ => 0) u cs cg gdm dm) =
      dot ndofs u (runQ2 N (fun _ => 0) v cs cg gdm dm) := by
  constructor
  · simp only [dot, runQ1, A_Q1_zeroA0, zero_add]
    rw [dot_scatter ndofs N 8 v dm _ hb8, dot_scatter ndofs N 8 u dm _ hb8]
    exact loopSum_congr fun id _ =>
      cellSymm_Q1 (wLocal 8 u dm id) (wLocal 8 v dm id) (cdLocal cg gdm id) (cs 0)
  · simp only [dot, runQ2, A_Q2_unfold, zero_add]
    rw [dot_scatter ndofs N 27 v dm _ hb27, dot_scatter ndofs N 27 u dm _ hb27]
    exact loopSum_congr fun id _ =>
      cellSymm_Q2 (wLocal 27 u dm id) (wLocal 27 v dm id) (cdLocal cg gdm id) (cs 0)

/-- C6, witness: the self-adjointness theorem applies to the concrete one-cell
identity-dofmap mesh with 27 degrees of freedom. -/
theorem C6_self_adjoint_witness :
    (∀ id < 1, ∀ i < 8, (fun n => n) (id * 8 + i) < 27) ∧
    (∀ id < 1, ∀ i < 27, (fun n => n) (id * 27 + i) < 27) ∧
    (dot 27 (fun n => ((2 * n + 1 : ℕ) : ℚ))
        (runQ1 1 (fun _ => 0) (fun n => (n : ℚ)) (fun _ => 1) cubeCoords
          (fun n => n) (fun n => n) (fun _ _ => 0)) =
      dot 27 (fun n => (n : ℚ))
        (runQ1 1 (fun _ => 0) (fun n => ((2 * n + 1 : ℕ) : ℚ)) (fun _ => 1) cubeCoords
          (fun n => n) (fun n => n) (fun _ _ => 0)) ∧
    dot 27 (fun n => ((2 * n + 1 : ℕ) : ℚ))
        (runQ2 1 (fun _ => 0) (fun n => (n : ℚ)) (fun _ => 1) cubeCoords
          (fun n => n) (fun n => n)) =
      dot 27 (fun n => (n : ℚ))
        (runQ2 1 (fun _ => 0) (fun n => ((2 * n + 1 : ℕ) : ℚ)) (fun _ => 1) cubeCoords
          (fun n => n) (fun n => n))) :=
  ⟨by decide, by decide,
    C6_self_adjoint 27 1 (fun _ => 1) cubeCoords (fun n => (n : ℚ))
      (fun n => ((2 * n + 1 : ℕ) : ℚ)) (fun n => n) (fun n => n)
      (by decide) (by decide)⟩

/-! ### C7: the atomic scatter is order-independent under exact arithmetic -/

/-- One scatter update `out[index] += value` — a single `atomicAdd` of the
scatter loops. -/
def applyUpdate (out : ℕ → ℚ) (p : ℕ × ℚ) : ℕ → ℚ :=
  fun g => if g = p.1 then out g + p.2 else out g

/-- Apply a list of scatter updates in the given order. -/
def applyUpdates (out : ℕ → ℚ) (l : List (ℕ × ℚ)) : ℕ → ℚ :=
  l.foldl applyUpdate out

/-- The strictly sequential cell-by-cell update list of one degree-1 launch:
cell 0's eight atomic adds in order, then cell 1's, and so on. -/
def cellUpdatesQ1 (N : ℕ) (wg c cg : ℕ → ℚ) (gdm dm : ℕ → ℕ)
    (A0 : ℕ → ℕ → ℚ) : List (ℕ × ℚ) :=
  (List.range N).flatMap fun id => (List.range 8).map fun i =>
    (dm (id * 8 + i), A_Q1 (A0 id) (wLocal 8 wg dm id) (cdLocal cg gdm id) (c 0) i)

/-- The strictly sequential cell-by-cell update list of one degree-2 launch. -/
def cellUpdatesQ2 (N : ℕ) (wg c cg : ℕ → ℚ) (gdm dm : ℕ → ℕ) : List (ℕ × ℚ) :=
  (List.range N).flatMap fun id => (List.range 27).map fun i =>
    (dm (id * 27 + i), A_Q2 (wLocal 27 wg dm id) (cdLocal cg gdm id) (c 0) i)

/-- Two additive updates commute (rational addition is associative and
commutative). -/
theorem applyUpdate_comm (out : ℕ → ℚ) (p q : ℕ × ℚ) :
    applyUpdate (applyUpdate out p) q = applyUpdate (applyUpdate out q) p := by
  funext g
  simp only [applyUpdate]
  split_ifs <;> ring

/-- Applying the updates in any order (any interleaving of the atomic adds)
gives the same final vector. -/
theorem applyUpdates_perm (l l' : List (ℕ × ℚ)) (h : l'.Perm l) (out : ℕ → ℚ) :
    applyUpdates out l' = applyUpdates out l := by
  induction h generalizing out with
  | nil => rfl
  | cons x _ ih =>
      simp only [applyUpdates, List.foldl_cons] at *
      exact ih _
  | swap x y l =>
      simp only [applyUpdates, List.foldl_cons, applyUpdate_comm]
  | trans h1 h2 ih1 ih2 => exact (ih1 out).trans (ih2 out)

/-- The additive contribution of an update list at output index `g`. -/
def sumUpdates (l : List (ℕ × ℚ)) (g : ℕ) : ℚ :=
  (l.map (fun p => if p.1 = g then p.2 else 0)).sum

theorem applyUpdates_eq_add_sum (l : List (ℕ × ℚ)) (out : ℕ → ℚ) :
    applyUpdates out l = fun g => out g + sumUpdates l g := by
  induction l generalizing out with
  | nil => funext g; simp [applyUpdates, sumUpdates]
  | cons p t ih =>
      funext g
      show applyUpdates (applyUpdate out p) t g = _
      rw [ih]
      have hs : sumUpdates (p :: t) g = (if p.1 = g then p.2 else 0) + sumUpdates t g := by
        simp [sumUpdates]
      rw [hs]
      simp only [applyUpdate]
      by_cases h : g = p.1
      · rw [if_pos h, if_pos h.symm]; ring
      · rw [if_neg h, if_neg fun he => h he.symm]; ring

theorem sumUpdates_append (l1 l2 : List (ℕ × ℚ)) (g : ℕ) :
    sumUpdates (l1 ++ l2) g = sumUpdates l1 g + sumUpdates l2 g := by
  simp [sumUpdates]

theorem loopSum_succ (n : ℕ) (f : ℕ → ℚ) :
    loopSum (n + 1) f = loopSum n f + f n := by
  simp [loopSum, List.range_succ]

theorem cellUpdatesQ1_value (N : ℕ) (wg c cg : ℕ → ℚ) (gdm dm : ℕ → ℕ)
    (A0 : ℕ → ℕ → ℚ) (g : ℕ) :
    sumUpdates (cellUpdatesQ1 N wg c cg gdm dm A0) g =
      loopSum N (fun id => loopSum 8 (fun i =>
        if dm (id * 8 + i) = g then
          A_Q1 (A0 id) (wLocal 8 wg dm id) (cdLocal cg gdm id) (c 0) i
        else 0)) := by
  induction N with
  | zero => rfl
  | succ n ih =>
      rw [loopSum_succ, ← ih, cellUpdatesQ1, List.range_succ, List.flatMap_append,
        sumUpdates_append, cellUpdatesQ1]
      congr 1

theorem cellUpdatesQ2_value (N : ℕ) (wg c cg : ℕ → ℚ) (gdm dm : ℕ → ℕ) (g : ℕ) :
    sumUpdates (cellUpdatesQ2 N wg c cg gdm dm) g =
      loopSum N (fun id => loopSum 27 (fun i =>
        if dm (id * 27 + i) = g then
          A_Q2 (wLocal 27 wg dm id) (cdLocal cg gdm id) (c 0) i
        else 0)) := by
  induction N with
  | zero => rfl
  | succ n ih =>
      rw [loopSum_succ, ← ih, cellUpdatesQ2, List.range_succ, List.flatMap_append,
        sumUpdates_append, cellUpdatesQ2]
      congr 1

/-- The strictly sequential cell-by-cell accumulation reproduces what the
kernel launch scatters into the output vector. -/
theorem applyUpdates_eq_runQ1 (N : ℕ) (wg c cg out : ℕ → ℚ) (gdm dm : ℕ → ℕ)
    (A0 : ℕ → ℕ → ℚ) :
    applyUpdates out (cellUpdatesQ1 N wg c cg gdm dm A0) =
      runQ1 N out wg c cg gdm dm A0 := by
  funext g
  rw [applyUpdates_eq_add_sum]
  show out g + sumUpdates (cellUpdatesQ1 N wg c cg gdm dm A0) g = _
  rw [cellUpdatesQ1_value]
  rfl

theorem applyUpdates_eq_runQ2 (N : ℕ) (wg c cg out : ℕ → ℚ) (gdm dm : ℕ → ℕ) :
    applyUpdates out (cellUpdatesQ2 N wg c cg gdm dm) =
      runQ2 N out wg c cg gdm dm := by
  funext g
  rw [applyUpdates_eq_add_sum]
  show out g + sumUpdates (cellUpdatesQ2 N wg c cg gdm dm) g = _
  rw [cellUpdatesQ2_value]
  rfl

/-- C7: under exact arithmetic any parallel interleaving of the per-cell
atomic adds (any permutation of the cell-by-cell update list) produces exactly
the strictly sequential accumulation, which in turn equals the kernel launch's
scattered output vector, for both kernel variants. -/
theorem C7_scatter_order_independent (N : ℕ) (wg c cg out : ℕ → ℚ)
    (gdm dm : ℕ → ℕ) (A0 : ℕ → ℕ → ℚ) (l1 l2 : List (ℕ × ℚ))
    (h1 : l1.Perm (cellUpdatesQ1 N wg c cg gdm dm A0))
    (h2 : l2.Perm (cellUpdatesQ2 N wg c cg gdm dm)) :
    (applyUpdates out l1 = applyUpdates out (cellUpdatesQ1 N wg c cg gdm dm A0) ∧
     applyUpdates out (cellUpdatesQ1 N wg c cg gdm dm A0) =
       runQ1 N out wg c cg gdm dm A0) ∧
    (applyUpdates out l2 = applyUpdates out (cellUpdatesQ2 N wg c cg gdm dm) ∧
     applyUpdates out (cellUpdatesQ2 N wg c cg gdm dm) =
       runQ2 N out wg c cg gdm dm) :=
  ⟨⟨applyUpdates_perm _ _ h1 out, applyUpdates_eq_runQ1 N wg c cg out gdm dm A0⟩,
   ⟨applyUpdates_perm _ _ h2 out, applyUpdates_eq_runQ2 N wg c cg out gdm dm⟩⟩

/-- C7, witness: the reversed update lists of the one-cell cube mesh are a
permutation of the sequential ones and give the same output vector. -/
theorem C7_scatter_order_independent_witness :
    (applyUpdates (fun _ => 0)
        (cellUpdatesQ1 1 (fun _ => 1) (fun _ => 1) cubeCoords (fun n => n) (fun n => n)
          (fun _ _ => 0)).reverse =
      applyUpdates (fun _ => 0)
        (cellUpdatesQ1 1 (fun _ => 1) (fun _ => 1) cubeCoords (fun n => n) (fun n => n)
          (fun _ _ => 0)) ∧
     applyUpdates (fun _ => 0)
        (cellUpdatesQ1 1 (fun _ => 1) (fun _ => 1) cubeCoords (fun n => n) (fun n => n)
          (fun _ _ => 0)) =
      runQ1 1 (fun _ => 0) (fun _ => 1) (fun _ => 1) cubeCoords (fun n => n) (fun n => n)
        (fun _ _ => 0)) ∧
    (applyUpdates (fun _ => 0)
        (cellUpdatesQ2 1 (fun _ => 1) (fun _ => 1) cubeCoords (fun n => n) (fun n => n)).reverse =
      applyUpdates (fun _ => 0)
        (cellUpdatesQ2 1 (fun _ => 1) (fun _ => 1) cubeCoords (fun n => n) (fun n => n)) ∧
     applyUpdates (fun _ => 0)
        (cellUpdatesQ2 1 (fun _ => 1) (fun _ => 1) cubeCoords (fun n => n) (fun n => n)) =
      runQ2 1 (fun _ => 0) (fun _ => 1) (fun _ => 1) cubeCoords (fun n => n) (fun n => n)) :=
  C7_scatter_order_independent 1 (fun _ => 1) (fun _ => 1) cubeCoords (fun _ => 0)
    (fun n => n) (fun n => n) (fun _ _ => 0) _ _
    (List.reverse_perm _) (List.reverse_perm _)

/-! ### C8: one launch mutates only the output accumulator -/

/-- The device memory one kernel launch can see. -/
structure Store where
  wglobal : ℕ → ℚ
  constants : ℕ → ℚ
  coords : ℕ → ℚ
  geom_dofmap : ℕ → ℕ
  dofmap : ℕ → ℕ
  Aglobal : ℕ → ℚ

/-- One `tabulate_tensor_Q1` launch as a state transformer: the kernel takes
every input through a `const` pointer and writes only `Aglobal`. -/
def launchQ1 (N : ℕ) (A0 : ℕ → ℕ → ℚ) (s : Store) : Store :=
  { s with Aglobal :=
      runQ1 N s.Aglobal s.wglobal s.constants s.coords s.geom_dofmap s.dofmap A0 }

/-- One `tabulate_tensor_Q2` launch as a state transformer. -/
def launchQ2 (N : ℕ) (s : Store) : Store :=
  { s with Aglobal :=
      runQ2 N s.Aglobal s.wglobal s.constants s.coords s.geom_dofmap s.dofmap }

theorem runQ1_untouched (N : ℕ) (Ag wg c cg : ℕ → ℚ) (gdm dm : ℕ → ℕ)
    (A0 : ℕ → ℕ → ℚ) (g : ℕ) (hg : ∀ id < N, ∀ i < 8, dm (id * 8 + i) ≠ g) :
    runQ1 N Ag wg c cg gdm dm A0 g = Ag g := by
  simp only [runQ1]
  rw [loopSum_eq_zero, add_zero]
  exact fun id hid => loopSum_eq_zero fun i hi => by simp [hg id hid i hi]

theorem runQ2_untouched (N : ℕ) (Ag wg c cg : ℕ → ℚ) (gdm dm : ℕ → ℕ)
    (g : ℕ) (hg : ∀ id < N, ∀ i < 27, dm (id * 27 + i) ≠ g) :
    runQ2 N Ag wg c cg gdm dm g = Ag g := by
  simp only [runQ2]
  rw [loopSum_eq_zero, add_zero]
  exact fun id hid => loopSum_eq_zero fun i hi => by simp [hg id hid i hi]

/-- C8: one launch leaves the coefficient vector, material constants,
coordinate array and both dofmaps unchanged, and every output entry whose
index no cell's field dofmap lists is also unchanged — for both variants. -/
theorem C8_frame (N : ℕ) (A0 : ℕ → ℕ → ℚ) (s : Store) :
    ((launchQ1 N A0 s).wglobal = s.wglobal ∧
     (launchQ1 N A0 s).constants = s.constants ∧
     (launchQ1 N A0 s).coords = s.coords ∧
     (launchQ1 N A0 s).geom_dofmap = s.geom_dofmap ∧
     (launchQ1 N A0 s).dofmap = s.dofmap ∧
     ∀ g, (∀ id < N, ∀ i < 8, s.dofmap (id * 8 + i) ≠ g) →
       (launchQ1 N A0 s).Aglobal g = s.Aglobal g) ∧
    ((launchQ2 N s).wglobal = s.wglobal ∧
     (launchQ2 N s).constants = s.constants ∧
     (launchQ2 N s).coords = s.coords ∧
     (launchQ2 N s).geom_dofmap = s.geom_dofmap ∧
     (launchQ2 N s).dofmap = s.dofmap ∧
     ∀ g, (∀ id < N, ∀ i < 27, s.dofmap (id * 27 + i) ≠ g) →
       (launchQ2 N s).Aglobal g = s.Aglobal g) :=
  ⟨⟨rfl, rfl, rfl, rfl, rfl,
      fun g hg => runQ1_untouched N s.Aglobal s.wglobal s.constants s.coords
        s.geom_dofmap s.dofmap A0 g hg⟩,
   ⟨rfl, rfl, rfl, rfl, rfl,
      fun g hg => runQ2_untouched N s.Aglobal s.wglobal s.constants s.coords
        s.geom_dofmap s.dofmap g hg⟩⟩

/-- C8, witness: on the one-cell identity-dofmap cube mesh, output entry 99 is
untouched by both launches. -/
theorem C8_frame_witness :
    (launchQ1 1 (fun _ _ => 0)
        ⟨fun _ => 1, fun _ => 1, cubeCoords, fun n => n, fun n => n, fun _ => 0⟩).Aglobal 99 =
      (0 : ℚ) ∧
    (launchQ2 1
        ⟨fun _ => 1, fun _ => 1, cubeCoords, fun n => n, fun n => n, fun _ => 0⟩).Aglobal 99 =
      (0 : ℚ) :=
  ⟨(C8_frame 1 (fun _ _ => 0)
      ⟨fun _ => 1, fun _ => 1, cubeCoords, fun n => n, fun n => n, fun _ => 0⟩).1.2.2.2.2.2
      99 (by decide),
   (C8_frame 1 (fun _ _ => 0)
      ⟨fun _ => 1, fun _ => 1, cubeCoords, fun n => n, fun n => n, fun _ => 0⟩).2.2.2.2.2.2
      99 (by decide)⟩

/-! ### C3: unsupported polynomial degree at construction -/

/-- C3, counterexample: constructing with the unsupported degree 3 and calling
`apply` does NOT leave the output vector unchanged with no error signalled:
the dispatch member was never set, and the call through it has no defined
result (modelled as `none`), rather than a guaranteed silent no-op. -/
theorem C3_counterexample_apply_not_noop :
    (matFreeLaplace 3 1 (fun _ => 1) cubeCoords (fun n => n) (fun n => n)).apply
      (fun _ _ => 0) (fun _ => 1) (fun _ => 0) ≠ some (fun _ => 0) := by
  simp [matFreeLaplace, MatFreeLaplace.apply]

/-- C3, amended: construction with any unsupported degree does not fail
detectably (the constructor returns an operator object for every degree), but
the dispatch member is left unset, and a subsequent `apply` call goes through
the unset kernel pointer: it has no defined result (modelled `none`), instead
of a guaranteed no-op on the output vector. -/
theorem C3_unsupported_degree_unset_dispatch (degree : ℤ)
    (h1 : degree ≠ 1) (h2 : degree ≠ 2) (num_cells : ℕ) (cs x : ℕ → ℚ)
    (xdm dm : ℕ → ℕ) :
    (matFreeLaplace degree num_cells cs x xdm dm).tabulate_tensor = none ∧
    ∀ (A0 : ℕ → ℕ → ℚ) (win aout : ℕ → ℚ),
      (matFreeLaplace degree num_cells cs x xdm dm).apply A0 win aout = none := by
  have ht : (matFreeLaplace degree num_cells cs x xdm dm).tabulate_tensor = none := by
    simp [matFreeLaplace, h1, h2]
  exact ⟨ht, fun A0 win aout => by simp [MatFreeLaplace.apply, ht]⟩

/-- C3, witness: the amended statement applies at the concrete degree 3. -/
theorem C3_unsupported_degree_witness :
    ((3 : ℤ) ≠ 1) ∧ ((3 : ℤ) ≠ 2) ∧
    ((matFreeLaplace 3 1 (fun _ => 1) cubeCoords (fun n => n) (fun n => n)).tabulate_tensor
        = none ∧
     ∀ (A0 : ℕ → ℕ → ℚ) (win aout : ℕ → ℚ),
       (matFreeLaplace 3 1 (fun _ => 1) cubeCoords (fun n => n) (fun n => n)).apply
         A0 win aout = none) :=
  ⟨by decide, by decide,
    C3_unsupported_degree_unset_dispatch 3 (by decide) (by decide) 1
      (fun _ => 1) cubeCoords (fun n => n) (fun n => n)⟩

/-! ### Telemetry collaborator: the ROCm-SMI wrapper (`src/unnamed/part_000`),
with `ROCM_SMI` defined.  Library interactions are recorded as a trace. -/

/-- A call made into the ROCm-SMI library. -/
inductive LibCall
  | init
  | shutdown
  | query
deriving DecidableEq

/-- `initialise_rocm_smi`: always calls `rsmi_init`; the global `initialised`
flag is set only when the library reports success (`succ`). -/
def initialise_rocm_smi (succ : Bool) (initialised : Bool) : Bool × List LibCall :=
  (if succ then true else initialised, [LibCall.init])

/-- `shutdown_rocm_smi`: calls `rsmi_shut_down` when `initialised` is set.
The flag is NOT cleared afterwards. -/
def shutdown_rocm_smi (initialised : Bool) : Bool × List LibCall :=
  if initialised then (initialised, [LibCall.shutdown]) else (initialised, [])

/-- `num_monitored_devices`: calls `rsmi_num_monitor_devices` only when
`initialised` is set. -/
def num_monitored_devices (initialised : Bool) : Bool × List LibCall :=
  if initialised then (initialised, [LibCall.query]) else (initialised, [])

/-- A telemetry entry point invoked by the application. -/
inductive TelemetryCall
  | initialise (succ : Bool)
  | shutdown
  | numDevices
deriving DecidableEq

/-- Run a sequence of telemetry calls from a given flag state, concatenating
the library-call traces. -/
def runCalls : List TelemetryCall → Bool → Bool × List LibCall
  | [], st => (st, [])
  | c :: cs, st =>
      let r := match c with
        | TelemetryCall.initialise succ => initialise_rocm_smi succ st
        | TelemetryCall.shutdown => shutdown_rocm_smi st
        | TelemetryCall.numDevices => num_monitored_devices st
      let rest := runCalls cs r.1
      (rest.1, r.2 ++ rest.2)

/-- C9: the reachable sequence "initialise (succeeds); shutdown; query device
count" ends with the flag still `true`, and its library trace contains a query
AFTER the teardown call — `shutdown_rocm_smi` never clears `initialised`, so
the guards let every later query through. -/
theorem C9_query_after_shutdown :
    runCalls [TelemetryCall.initialise true, TelemetryCall.shutdown,
        TelemetryCall.numDevices] false =
      (true, [LibCall.init, LibCall.shutdown, LibCall.query]) := by
  decide

/-! ### C10: failure handling inside the print operations -/

/-- The device loop of `print_amd_gpu_memory_busy`: one `(device, percent)`
line per device; a failing query executes `return`, ending the whole call, so
no further lines are produced. -/
def printBusyLoop (get : ℕ → Option ℕ) : ℕ → ℕ → List (ℕ × ℕ)
  | 0, _ => []
  | rem + 1, i =>
      match get i with
      | none => []
      | some v => (i, v) :: printBusyLoop get rem (i + 1)

/-- `print_amd_gpu_memory_busy` over `n` monitored devices (the lines actually
printed, in order). -/
def print_amd_gpu_memory_busy (n : ℕ) (get : ℕ → Option ℕ) : List (ℕ × ℕ) :=
  printBusyLoop get n 0

/-- The category loop of `print_amd_gpu_memory_used` for one device: items
`(device, mem_type, usage)` for the three memory categories; a failure returns
what was already printed plus an aborted flag. -/
def printUsedCats (getU : ℕ → ℕ → Option ℕ) (i : ℕ) :
    ℕ → ℕ → List (ℕ × ℕ × ℕ) × Bool
  | 0, _ => ([], true)
  | rem + 1, m =>
      match getU i m with
      | none => ([], false)
      | some v =>
          let r := printUsedCats getU i rem (m + 1)
          ((i, m, v) :: r.1, r.2)

/-- The device loop of `print_amd_gpu_memory_used`: a failure inside any
device's category loop executes `return`, ending the whole call. -/
def printUsedLoop (getU : ℕ → ℕ → Option ℕ) : ℕ → ℕ → List (ℕ × ℕ × ℕ)
  | 0, _ => []
  | rem + 1, i =>
      let r := printUsedCats getU i 3 0
      if r.2 then r.1 ++ printUsedLoop getU rem (i + 1) else r.1

/-- `print_amd_gpu_memory_used` over `n` monitored devices. -/
def print_amd_gpu_memory_used (n : ℕ) (getU : ℕ → ℕ → Option ℕ) :
    List (ℕ × ℕ × ℕ) :=
  printUsedLoop getU n 0

/-- C10, counterexample: one failing query does NOT suppress only its own
line.  With 2 devices and the busy query failing at device 0, device 1's query
would succeed yet its line is not printed (the call returns nothing at all);
with the usage query failing only at device 0, category 1, the lines for
device 0 category 2 and for all of device 1 are likewise lost. -/
theorem C10_counterexample_failure_kills_rest :
    print_amd_gpu_memory_busy 2 (fun i => if i = 0 then none else some 5) = [] ∧
    (fun i : ℕ => if i = 0 then none else some 5) 1 = some 5 ∧
    print_amd_gpu_memory_used 2
        (fun i m => if i = 0 ∧ m = 1 then none else some 7) = [(0, 0, 7)] ∧
    (fun (i m : ℕ) => if i = 0 ∧ m = 1 then none else some 7) 1 0 = some 7 := by
  refine ⟨rfl, rfl, ?_, rfl⟩
  decide

theorem printBusyLoop_not_mem (get : ℕ → Option ℕ) (i : ℕ) (hi : get i = none) :
    ∀ (rem start : ℕ), start ≤ i → ∀ j x, i < j →
      (j, x) ∉ printBusyLoop get rem start := by
  intro rem
  induction rem with
  | zero => intro start _ j x _ h; exact absurd h (List.not_mem_nil _)
  | succ k ih =>
      intro start hs j x hij h
      rw [printBusyLoop] at h
      cases hg : get start with
      | none => rw [hg] at h; exact absurd h (List.not_mem_nil _)
      | some v =>
          rw [hg] at h
          rcases List.mem_cons.mp h with h1 | h2
          · have : j = start := congrArg Prod.fst h1
            omega
          · have hne : start ≠ i := fun he => by rw [he, hi] at hg; cases hg
            exact ih (start + 1) (by omega) j x hij h2

theorem printBusyLoop_mem (get : ℕ → Option ℕ) :
    ∀ (rem start j x : ℕ), j < start + rem → start ≤ j → get j = some x →
      (∀ k, start ≤ k → k ≤ j → get k ≠ none) →
      (j, x) ∈ printBusyLoop get rem start := by
  intro rem
  induction rem with
  | zero => intro start j x h1 h2 _ _; omega
  | succ k ih =>
      intro start j x h1 h2 hj hall
      rw [printBusyLoop]
      cases hg : get start with
      | none => exact absurd hg (hall start le_rfl h2)
      | some v =>
          rcases Nat.eq_or_lt_of_le h2 with he | hlt
          · subst he
            rw [hj] at hg
            exact (Option.some.injEq _ _).mp hg.symm ▸ List.mem_cons_self _ _
          · exact List.mem_cons_of_mem _
              (ih (start + 1) j x (by omega) hlt hj fun k hk1 hk2 => hall k (by omega) hk2)

/-- C10, amended: a failing query inside `print_amd_gpu_memory_busy` is
non-fatal (the call still returns a line list) but suppresses the failing line
AND every later line of the same call; the lines of devices processed strictly
before the first failure are still produced. -/
theorem C10_failure_truncates_call (n : ℕ) (get : ℕ → Option ℕ) :
    (∀ i j x, get i = none → i < j → (j, x) ∉ print_amd_gpu_memory_busy n get) ∧
    (∀ j x, j < n → get j = some x → (∀ k ≤ j, get k ≠ none) →
      (j, x) ∈ print_amd_gpu_memory_busy n get) :=
  ⟨fun i j x hi hij =>
      printBusyLoop_not_mem get i hi n 0 (Nat.zero_le i) j x hij,
   fun j x hjn hj hall =>
      printBusyLoop_mem get n 0 j x (by omega) (Nat.zero_le j) hj
        fun k _ hk2 => hall k hk2⟩

/-- C10, witness: with the busy query failing at device 1 of 3, device 2's
line is suppressed while device 0's line is produced. -/
theorem C10_failure_truncates_call_witness :
    ((2, 5) ∉ print_amd_gpu_memory_busy 3
        (fun i => if i = 1 then none else some 5)) ∧
    ((0, 5) ∈ print_amd_gpu_memory_busy 3
        (fun i => if i = 1 then none else some 5)) :=
  ⟨(C10_failure_truncates_call 3 (fun i => if i = 1 then none else some 5)).1
      1 2 5 (by decide) (by decide),
   (C10_failure_truncates_call 3 (fun i => if i = 1 then none else some 5)).2
      0 5 (by decide) (by decide) (by decide)⟩

end MatFree
